import Mathlib

/-!
# Verification of the SmartMeterBlock telemetry engine

Shallow embedding of `src/simulation/SmartMeterBlock.m` (a MATLAB
`matlab.System` block): the signal analyzer (waveform mode of `stepImpl`,
lines 81-151), the payload/envelope construction (lines 176-199,
`buildLineProtocolInflux`, `buildDLMSPayload`, `hmacSha256Hex`), and the
telemetry scheduler (`stepImpl` control flow, `resetImpl`).

Conventions of the embedding:
* MATLAB doubles that only participate in control flow (wall-clock times,
  the send interval, sampling rate, nominal frequency) are embedded as `ℚ`
  so that the scheduler's branching is decidable; doubles that feed the
  spectral mathematics (waveform samples and derived measurements) are
  embedded as `ℝ`.
* Times are seconds since the Unix epoch, so the `datetime(1970,1,1)`
  initial `LastSendTime` is `0` and `seconds(nowUtc - LastSendTime)` is
  plain subtraction.
* MATLAB builtins that are external to the repository (`sprintf` float
  formatting, `jsonencode`, the Java `HmacSHA256` primitive, the TCP/UDP
  write) are abstracted as parameters gathered in `Externals`; everything
  the repository's own code does with their results is embedded concretely.
* A MATLAB `error(...)` is an `Except.error`; the `try/catch` of `stepImpl`
  is the `match` that converts any such error into status `-1`.
-/

namespace SmartMeter

/-- MATLAB `round`: round half away from zero (on the rational embedding of
doubles). -/
def matlabRoundQ (x : ℚ) : ℤ :=
  if 0 ≤ x then ⌊x + 1/2⌋ else ⌈x - 1/2⌉

/-- `int64(posixtime(nowUtc) * 1e9)` (lines 174 and 218): the tick's capture
time in nanoseconds since the Unix epoch, `now` being seconds since epoch. -/
def tsNs (now : ℚ) : ℤ :=
  matlabRoundQ (now * 1000000000)

/-- MATLAB `hann(N)` (symmetric Hann window), coefficient at position
`n = 0, …, N-1`: `0.5*(1-cos(2*pi*n/(N-1)))`, with the MATLAB special case
`hann(1) = [1]`. -/
noncomputable def hann (N : ℕ) (n : ℕ) : ℝ :=
  if N = 1 then 1
  else 1/2 * (1 - Real.cos (2 * Real.pi * (n : ℝ) / ((N : ℝ) - 1)))

/-- The list of Hann coefficients `hann(N)` (line 97). -/
noncomputable def hannList (N : ℕ) : List ℝ :=
  (List.range N).map (hann N)

/-- `x(:) .* w` (lines 98-99): elementwise product of a sample vector with
the Hann window of its own length. -/
noncomputable def windowed (x : List ℝ) : List ℝ :=
  List.zipWith (fun a b => a * b) x (hannList x.length)

/-- MATLAB `mean` of a vector. -/
noncomputable def listMean (l : List ℝ) : ℝ :=
  l.sum / (l.length : ℝ)

/-- One bin of MATLAB `fft(x)` read at the one-based index `k` (lines
112-120): `X(k) = sum_n x(n+1) * exp(-2*pi*i*(k-1)*n/N)` over
`n = 0, …, N-1`. -/
noncomputable def fftBin (x : List ℝ) (k : ℤ) : ℂ :=
  ∑ n in Finset.range x.length,
    ((x.getD n 0 : ℝ) : ℂ) *
      Complex.exp (-(2 * (Real.pi : ℂ) * Complex.I * ((k : ℂ) - 1) * (n : ℂ)) /
        (x.length : ℂ))

/-- The fundamental-bin selection of lines 111 and 116-118:
`kFund = round(FundamentalFreq * N / fs) + 1` (the `+1` converting the
zero-based DFT bin number to a MATLAB one-based index), wrapped by
`kFund = mod(kFund-1, N) + 1` when it exceeds `N`. -/
def fundamentalBin (N : ℕ) (fs f : ℚ) : ℤ :=
  let k0 := matlabRoundQ (f * (N : ℚ) / fs) + 1
  if k0 > (N : ℤ) then ((k0 - 1) % (N : ℤ)) + 1 else k0

/-- Modelled from the spec: the spec's own bin formula
"`k = round(nominal_freq_hz * N / sample_rate_hz)` (one-based), wrapping `k`
into `[1, N]` via `((k-1) mod N) + 1` if it exceeds N" — stated without the
`+1` that the code applies.  Kept separate so it can be compared with
`fundamentalBin`, the formula the code actually uses. -/
def specFundamentalBin (N : ℕ) (fs f : ℚ) : ℤ :=
  let k := matlabRoundQ (f * (N : ℚ) / fs)
  if k > (N : ℤ) then ((k - 1) % (N : ℤ)) + 1 else k

/-- The errors a tick can raise inside the `try` of `stepImpl`:
`invalidWindow` is the `error(...)` of line 88, `badIndex` is MATLAB's
runtime error for a non-positive array index at `V_fft(kFund)` (line 119),
`badArity` is the input-shape error (line 156 / wrong `varargin`),
and `sendFailed` is the rethrown transport error of `sendToTelegraf`
(line 290). -/
inductive StepError
  | invalidWindow
  | badIndex
  | badArity
  | sendFailed
deriving DecidableEq, Repr

/-- The fundamental-domain intermediate values exposed as `meta`
(lines 146-151). -/
structure Meas where
  VrmsFund : ℝ
  IrmsFund : ℝ
  Pfund : ℝ
  Qfund : ℝ
  S : ℝ
  N : ℕ

/-- The nine quantities (plus `meta`) that flow from the analysis phase into
payload building (lines 135-151 resp. 158-167).  `energyKwh`,
`maxDemandKw`, `costValue` are `Option ℝ` with `none` standing for MATLAB's
`NaN` "not available" sentinel. -/
structure Quantities where
  pActive : ℝ
  pReactive : ℝ
  voltage : ℝ
  current : ℝ
  frequency : ℝ
  timeOfUse : String
  energyKwh : Option ℝ
  maxDemandKw : Option ℝ
  costValue : Option ℝ
  meta : Option Meas

/-- The waveform branch of `stepImpl` (lines 81-151): validation, Hann
windowing, RMS, instantaneous power, fundamental phasor extraction via the
DFT bin `fundamentalBin`, and the derived fundamental quantities. -/
noncomputable def analyzeWaveform (fs f : ℚ) (v i : List ℝ) :
    Except StepError Quantities :=
  if v.length = 0 ∨ i.length = 0 ∨ v.length ≠ i.length then
    Except.error StepError.invalidWindow
  else
    let N := v.length
    let v_w := windowed v
    let i_w := windowed i
    let k := fundamentalBin N fs f
    if k < 1 then Except.error StepError.badIndex
    else
      let V1 := fftBin v_w k
      let I1 := fftBin i_w k
      let VrmsFund := Complex.abs V1 / (N : ℝ) / Real.sqrt 2
      let IrmsFund := Complex.abs I1 / (N : ℝ) / Real.sqrt 2
      let Pfund := (V1 * (starRingEnd ℂ) I1).re / ((N : ℝ) ^ 2)
      let Qfund := (V1 * (starRingEnd ℂ) I1).im / ((N : ℝ) ^ 2)
      Except.ok
        { pActive := listMean (List.zipWith (fun a b => a * b) v_w i_w)
          pReactive := Qfund
          voltage := Real.sqrt (listMean (v_w.map (fun a => a ^ 2)))
          current := Real.sqrt (listMean (i_w.map (fun a => a ^ 2)))
          frequency := (f : ℝ)
          timeOfUse := ""
          energyKwh := none
          maxDemandKw := none
          costValue := none
          meta := some
            { VrmsFund := VrmsFund
              IrmsFund := IrmsFund
              Pfund := Pfund
              Qfund := Qfund
              S := VrmsFund * IrmsFund
              N := N } }

/-- `Except.ok`-ness as a boolean, used to state success/failure of the
analysis phase. -/
def exOk {ε α : Type} : Except ε α → Bool
  | Except.ok _ => true
  | Except.error _ => false

/-- The `Nontunable` configuration of the block (lines 9-22), restricted to
the fields that influence `stepImpl`.  Times and frequencies are `ℚ`
(embedded doubles). -/
structure Config where
  meterId : String
  nodeType : String
  sendInterval : ℚ
  communicationFormat : String
  useWaveformInput : Bool
  samplingRate : ℚ
  fundamentalFreq : ℚ
  hmacKey : String

/-- The mutable private state of the block (lines 24-29).  `tcpClient`
records whether a transport handle object is present (`TcpClient`
non-empty), `lastSendTime` is seconds since epoch (`datetime(1970,1,1)`
is `0`). -/
structure MeterState where
  lastSendTime : ℚ
  sampleCount : ℕ
  isConnected : Bool
  tcpClient : Bool
deriving DecidableEq, Repr

/-- The two input shapes of `stepImpl` (lines 67-73): waveform vectors when
`UseWaveformInput`, nine precomputed scalars otherwise. -/
inductive StepInput
  | waveform (v i : List ℝ)
  | scalars (pA pR volt cur freq : ℝ) (tou : String) (eK mD cost : Option ℝ)

/-- The signed envelope of lines 192-195. -/
structure Envelope where
  payload : String
  hmac : String
  meter_id : String
  timestamp_ns : ℤ

/-- The simulated DLMS/COSEM payload built by `buildDLMSPayload`
(lines 239-264), before `jsonencode`. -/
structure DLMSPayload where
  meter_id : String
  node_type : String
  timestamp_ns : ℤ
  energyKwh : Option ℝ
  pActive : ℝ
  pReactive : ℝ
  voltage : ℝ
  current : ℝ
  frequency : ℝ
  maxDemandKw : Option ℝ
  costValue : Option ℝ
  timeOfUse : String
  meta : Option Meas

/-- MATLAB builtins external to the repository, abstracted: `fmt6` is
`sprintf` `%.6f` formatting of one double; `jsonencodeDLMS` and
`jsonencodeEnv` are `jsonencode` on the two structured values; `hmacRaw` is
the Java `Mac('HmacSHA256').doFinal` byte sequence of (data, key). -/
structure Externals where
  fmt6 : ℝ → String
  jsonencodeDLMS : DLMSPayload → String
  jsonencodeEnv : Envelope → String
  hmacRaw : String → String → List ℕ

/-- `sprintf('%.6f', x)` lifted to the `NaN` sentinel. -/
def fmtOpt (fmt6 : ℝ → String) : Option ℝ → String
  | none => "NaN"
  | some x => fmt6 x

/-- One lowercase hexadecimal digit: digits then letters (the lowercased
output alphabet of `dec2hex`). -/
def hexChar (n : ℕ) : Char :=
  if n < 10 then Char.ofNat ('0'.toNat + n)
  else if n < 16 then Char.ofNat ('a'.toNat + (n - 10))
  else '0'

/-- One byte rendered at the column width MATLAB's `dec2hex` chose for the
whole vector (1 or 2 hex digits), lowercased. -/
def byteHex (width : ℕ) (b : ℕ) : String :=
  if width = 1 then String.mk [hexChar (b % 16)]
  else String.mk [hexChar (b / 16 % 16), hexChar (b % 16)]

/-- `lower(dec2hex(out)')` flattened column-major (line 276): `dec2hex` on a
byte vector uses the digit width of the largest element (1 when every byte
is below 16, else 2), the transpose-and-flatten concatenates the digits
byte by byte in order. -/
def hmacHexOfBytes (bs : List ℕ) : String :=
  let width := if bs.all (fun b => b < 16) then 1 else 2
  String.join (bs.map (byteHex width))

/-- `hmacSha256Hex(dataStr, keyStr)` (lines 266-277) with the Java HMAC
primitive abstracted as `hmacRaw`: the byte sequence rendered as a
lowercase hexadecimal string. -/
def hmacSha256Hex (hmacRaw : String → String → List ℕ)
    (dataStr keyStr : String) : String :=
  hmacHexOfBytes (hmacRaw dataStr keyStr)

/-- `buildLineProtocolInflux` (lines 221-237): three newline-terminated
Influx line-protocol records with `%.6f` fields and the `%d` timestamp. -/
def buildLineProtocolInflux (fmt6 : ℝ → String) (q : Quantities)
    (timestamp_ns : ℤ) : String :=
  "realtime_readings p_active=" ++ fmt6 q.pActive ++
    ",p_reactive=" ++ fmt6 q.pReactive ++
    ",voltage=" ++ fmt6 q.voltage ++
    ",current=" ++ fmt6 q.current ++
    ",frequency=" ++ fmt6 q.frequency ++
    " " ++ toString timestamp_ns ++ "\n" ++
  "aggregated_usage energy_kwh=" ++ fmtOpt fmt6 q.energyKwh ++
    ",max_demand_kw=" ++ fmtOpt fmt6 q.maxDemandKw ++
    " " ++ toString timestamp_ns ++ "\n" ++
  "meter_cost total_cost=" ++ fmtOpt fmt6 q.costValue ++
    " " ++ toString timestamp_ns ++ "\n"

/-- `buildDLMSPayload` (lines 239-264) as the structured value handed to
`jsonencode`. -/
def buildDLMSPayload (cfg : Config) (q : Quantities) (timestamp_ns : ℤ) :
    DLMSPayload :=
  { meter_id := cfg.meterId
    node_type := cfg.nodeType
    timestamp_ns := timestamp_ns
    energyKwh := q.energyKwh
    pActive := q.pActive
    pReactive := q.pReactive
    voltage := q.voltage
    current := q.current
    frequency := q.frequency
    maxDemandKw := q.maxDemandKw
    costValue := q.costValue
    timeOfUse := q.timeOfUse
    meta := q.meta }

/-- The payload selection of lines 176-187: `strcmpi` on the configured
format chooses line protocol, anything else the DLMS JSON. -/
def payloadOf (ext : Externals) (cfg : Config) (q : Quantities)
    (timestamp_ns : ℤ) : String :=
  if cfg.communicationFormat.toLower = "influx" then
    buildLineProtocolInflux ext.fmt6 q timestamp_ns
  else
    ext.jsonencodeDLMS (buildDLMSPayload cfg q timestamp_ns)

/-- The signing step of lines 189-199: with a non-empty `HMACKey` the
transmitted bytes are the JSON-serialized envelope, otherwise the raw
payload. -/
def sendStrOf (ext : Externals) (cfg : Config) (q : Quantities)
    (timestamp_ns : ℤ) : String :=
  let payload := payloadOf ext cfg q timestamp_ns
  if cfg.hmacKey ≠ "" then
    ext.jsonencodeEnv
      { payload := payload
        hmac := hmacSha256Hex ext.hmacRaw payload cfg.hmacKey
        meter_id := cfg.meterId
        timestamp_ns := timestamp_ns }
  else payload

/-- The analysis phase of `stepImpl` (lines 81-168): the waveform branch
runs the analyzer, the scalar branch accepts the nine supplied values; an
input shape not matching the configured mode is the MATLAB `varargin`
error. -/
noncomputable def analysisPhase (cfg : Config) (inp : StepInput) :
    Except StepError Quantities :=
  match cfg.useWaveformInput, inp with
  | true, StepInput.waveform v i =>
      analyzeWaveform cfg.samplingRate cfg.fundamentalFreq v i
  | false, StepInput.scalars pA pR volt cur freq tou eK mD cost =>
      Except.ok
        { pActive := pA, pReactive := pR, voltage := volt, current := cur
          frequency := freq, timeOfUse := tou, energyKwh := eK
          maxDemandKw := mD, costValue := cost, meta := none }
  | _, _ => Except.error StepError.badArity

/-- The observable result of one tick: the two block outputs `y1`
(status) and `y2` (timestamp), the post-tick state, whether the send gate
of line 171 was entered, and the exact string handed to `sendToTelegraf`
(if it was called). -/
structure StepResult where
  status : ℤ
  timestampNs : ℤ
  state : MeterState
  attempted : Bool
  transmitted : Option String
deriving Repr

/-- `stepImpl` (lines 67-219).  `now` is the tick's `datetime('now')` in
seconds since epoch; `sendOk` tells whether the underlying transport write
of `sendToTelegraf` succeeds (its failure is rethrown and caught by the
`try/catch`, giving status `-1`).  The counter increment and `elapsed`
computation (lines 75-77) precede the `try`; the `catch` converts any
analysis or transport error into status `-1`; `LastSendTime` is updated
only directly after a successful transmit (line 204). -/
noncomputable def stepImpl (ext : Externals) (cfg : Config) (st : MeterState)
    (inp : StepInput) (now : ℚ) (sendOk : Bool) : StepResult :=
  let count := st.sampleCount + 1
  let elapsed := now - st.lastSendTime
  let ts := tsNs now
  match analysisPhase cfg inp with
  | Except.error _ =>
      { status := -1, timestampNs := ts
        state := { st with sampleCount := count }
        attempted := false, transmitted := none }
  | Except.ok q =>
      if elapsed ≥ cfg.sendInterval ∨ count = 1 then
        if st.isConnected then
          let sendStr := sendStrOf ext cfg q ts
          if sendOk then
            { status := 1, timestampNs := ts
              state := { st with sampleCount := count, lastSendTime := now }
              attempted := true, transmitted := some sendStr }
          else
            { status := -1, timestampNs := ts
              state := { st with sampleCount := count }
              attempted := true, transmitted := some sendStr }
        else
          { status := 0, timestampNs := ts
            state := { st with sampleCount := count }
            attempted := true, transmitted := none }
      else
        { status := 0, timestampNs := ts
          state := { st with sampleCount := count }
          attempted := false, transmitted := none }

/-- `resetImpl` (lines 310-314): `LastSendTime` back to the epoch,
`SampleCount` to zero. -/
def resetImpl (st : MeterState) : MeterState :=
  { st with lastSendTime := 0, sampleCount := 0 }

/-- Whether a character is a lowercase hexadecimal digit. -/
def isLowerHexChar (c : Char) : Bool :=
  (('0'.toNat ≤ c.toNat && c.toNat ≤ '9'.toNat) ||
   ('a'.toNat ≤ c.toNat && c.toNat ≤ 'f'.toNat))

/-! ### Concrete fixtures used to exercise the embedding -/

/-- A concrete instantiation of the external MATLAB builtins. -/
def ext0 : Externals :=
  { fmt6 := fun _ => ""
    jsonencodeDLMS := fun _ => "dlms"
    jsonencodeEnv := fun e =>
      String.intercalate "|" [e.payload, e.hmac, e.meter_id, toString e.timestamp_ns]
    hmacRaw := fun _ _ => [] }

/-- The block's default configuration (lines 10-21) with `SendInterval = 5`
and scalar input mode. -/
def cfg0 : Config :=
  { meterId := "METER_001", nodeType := "consumer", sendInterval := 5
    communicationFormat := "influx", useWaveformInput := false
    samplingRate := 4800, fundamentalFreq := 50, hmacKey := "" }

/-- `cfg0` with a signing key configured. -/
def cfgHmac : Config := { cfg0 with hmacKey := "secret" }

/-- `ext0` with a non-trivial HMAC primitive. -/
def extHmac : Externals := { ext0 with hmacRaw := fun _ _ => [171, 5] }

/-- A scalar-mode input record. -/
noncomputable def inp0 : StepInput :=
  StepInput.scalars 0 0 0 0 0 "" none none none

/-- The quantities `analysisPhase cfg0 inp0` produces. -/
noncomputable def q0 : Quantities :=
  { pActive := 0, pReactive := 0, voltage := 0, current := 0, frequency := 0
    timeOfUse := "", energyKwh := none, maxDemandKw := none, costValue := none
    meta := none }

/-- Post-`setupImpl` state of a successfully connected block. -/
def st0 : MeterState :=
  { lastSendTime := 0, sampleCount := 0, isConnected := true, tcpClient := true }

/-- Post-`setupImpl` state of a block whose connection attempt failed
(line 52): never opened. -/
def stDisc : MeterState :=
  { lastSendTime := 0, sampleCount := 0, isConnected := false, tcpClient := false }

/-- Tick 1 of the gate scenario: `t = 0`, fresh state. -/
noncomputable def scen0 : StepResult := stepImpl ext0 cfg0 st0 inp0 0 true

/-- Tick 2 of the gate scenario: `t = 1`. -/
noncomputable def scen1 : StepResult := stepImpl ext0 cfg0 scen0.state inp0 1 true

/-- Tick 3 of the gate scenario: `t = 2`. -/
noncomputable def scen2 : StepResult := stepImpl ext0 cfg0 scen1.state inp0 2 true

/-- Tick 4 of the gate scenario: `t = 6`. -/
noncomputable def scen3 : StepResult := stepImpl ext0 cfg0 scen2.state inp0 6 true

end SmartMeter

namespace SmartMeter

/-! ### Theorems -/

/-- Claim C1: every invocation of the Scheduler's step, on any inputs,
returns a status among 1, 0 and -1 together with the current tick's capture
timestamp in nanoseconds since epoch; the `try/catch` of `stepImpl`
converts every analysis, encoding, signing or transport error into the
status `-1` (the embedding `stepImpl` is a total function: no exception
reaches the host). -/
theorem c1_step_total (ext : Externals) (cfg : Config) (st : MeterState)
    (inp : StepInput) (now : ℚ) (sendOk : Bool) :
    ((stepImpl ext cfg st inp now sendOk).status = 1 ∨
      (stepImpl ext cfg st inp now sendOk).status = 0 ∨
      (stepImpl ext cfg st inp now sendOk).status = -1) ∧
    (stepImpl ext cfg st inp now sendOk).timestampNs = tsNs now := by
  unfold stepImpl
  dsimp only
  split
  · simp
  · split
    · split
      · split <;> simp
      · simp
    · simp

/-- Claim C7: `LastSendTime` is updated to the current tick's capture time
exactly on a successful transmission (status `1`); on an error tick and on
a skipped tick it retains its previous value. -/
theorem c7_last_send_time (ext : Externals) (cfg : Config) (st : MeterState)
    (inp : StepInput) (now : ℚ) (sendOk : Bool) :
    ((stepImpl ext cfg st inp now sendOk).status = 1 →
      (stepImpl ext cfg st inp now sendOk).state.lastSendTime = now) ∧
    ((stepImpl ext cfg st inp now sendOk).status ≠ 1 →
      (stepImpl ext cfg st inp now sendOk).state.lastSendTime = st.lastSendTime) := by
  unfold stepImpl
  dsimp only
  split
  · simp
  · split
    · split
      · split <;> simp
      · simp
    · simp

/-- Claim C7, witness: a concrete successful tick records `now`. -/
theorem c7_last_send_time_witness :
    ((stepImpl ext0 cfg0 st0 inp0 0 true).status = 1 →
      (stepImpl ext0 cfg0 st0 inp0 0 true).state.lastSendTime = 0) ∧
    ((stepImpl ext0 cfg0 st0 inp0 0 true).status ≠ 1 →
      (stepImpl ext0 cfg0 st0 inp0 0 true).state.lastSendTime = st0.lastSendTime) :=
  c7_last_send_time ext0 cfg0 st0 inp0 0 true

/-- Claim C9: `resetImpl` sets `LastSendTime` to the epoch and the sample
counter to zero and changes nothing else — the connected/failed status and
the transport handle are exactly as before, so a reset does not imply a
reconnect. -/
theorem c9_reset_frame (st : MeterState) :
    (resetImpl st).lastSendTime = 0 ∧ (resetImpl st).sampleCount = 0 ∧
    (resetImpl st).isConnected = st.isConnected ∧
    (resetImpl st).tcpClient = st.tcpClient := by
  simp [resetImpl]

/-- Claim C10: the sample counter is incremented exactly once on every step
invocation, whatever the outcome (including error and skipped ticks), and
the first-tick exemption of the gate can only fire when the pre-tick
counter was zero — i.e. on the very first invocation after construction or
reset; any later tick only attempts a send when the interval has elapsed. -/
theorem c10_counter (ext : Externals) (cfg : Config) (st : MeterState)
    (inp : StepInput) (now : ℚ) (sendOk : Bool) :
    (stepImpl ext cfg st inp now sendOk).state.sampleCount = st.sampleCount + 1 ∧
    ((stepImpl ext cfg st inp now sendOk).attempted = true →
      st.sampleCount = 0 ∨ now - st.lastSendTime ≥ cfg.sendInterval) := by
  unfold stepImpl
  dsimp only
  split
  · simp
  · rename_i q hq
    split
    · rename_i hg
      have hg' : st.sampleCount = 0 ∨ now - st.lastSendTime ≥ cfg.sendInterval := by
        rcases hg with h | h
        · exact Or.inr h
        · exact Or.inl (by omega)
      split
      · split <;> simp [hg']
      · simp [hg']
    · simp

/-- Claim C10, witness: on a concrete first tick the counter goes to one
and the attempted send is covered by the first-tick exemption. -/
theorem c10_counter_witness :
    (stepImpl ext0 cfg0 st0 inp0 0 true).state.sampleCount = st0.sampleCount + 1 ∧
    ((stepImpl ext0 cfg0 st0 inp0 0 true).attempted = true →
      st0.sampleCount = 0 ∨ (0 : ℚ) - st0.lastSendTime ≥ cfg0.sendInterval) :=
  c10_counter ext0 cfg0 st0 inp0 0 true

/-- Claim C3: a send is attempted exactly when the elapsed time since
`LastSendTime` reaches the configured interval or the (incremented) sample
counter equals 1; otherwise the tick transmits nothing and returns the
skipped outcome 0.  In particular, with `SendInterval = 5` and a connected
transport, ticks at `t = 0, 1, 2, 6` yield outcomes 1, 0, 0, 1. -/
theorem c3_gate :
    (∀ (ext : Externals) (cfg : Config) (st : MeterState) (inp : StepInput)
        (now : ℚ) (sendOk : Bool) (q : Quantities),
      analysisPhase cfg inp = Except.ok q →
      ((stepImpl ext cfg st inp now sendOk).attempted = true ↔
        (now - st.lastSendTime ≥ cfg.sendInterval ∨ st.sampleCount + 1 = 1)) ∧
      ((stepImpl ext cfg st inp now sendOk).attempted = false →
        (stepImpl ext cfg st inp now sendOk).status = 0 ∧
        (stepImpl ext cfg st inp now sendOk).transmitted = none)) ∧
    (scen0.status = 1 ∧ scen1.status = 0 ∧ scen2.status = 0 ∧ scen3.status = 1) := by
  constructor
  · intro ext cfg st inp now sendOk q hq
    unfold stepImpl
    dsimp only
    rw [hq]
    dsimp only
    split
    · rename_i hg
      have hg' : cfg.sendInterval ≤ now - st.lastSendTime ∨ st.sampleCount = 0 := by
        rcases hg with h | h
        · exact Or.inl h
        · exact Or.inr (by omega)
      constructor
      · split
        · split <;> simp [hg']
        · simp [hg']
      · split
        · split <;> simp
        · simp
    · rename_i hg
      have hg' : ¬(cfg.sendInterval ≤ now - st.lastSendTime) ∧ ¬st.sampleCount = 0 := by
        constructor
        · exact fun h => hg (Or.inl h)
        · exact fun h => hg (Or.inr (by omega))
      simp [hg'.1, hg'.2]
  · have h0 : scen0.state =
        { lastSendTime := 0, sampleCount := 1, isConnected := true, tcpClient := true } := by
      norm_num [scen0, stepImpl, analysisPhase, cfg0, st0, inp0]
    have s0 : scen0.status = 1 := by
      norm_num [scen0, stepImpl, analysisPhase, cfg0, st0, inp0]
    have h1 : scen1.state =
        { lastSendTime := 0, sampleCount := 2, isConnected := true, tcpClient := true } := by
      norm_num [scen1, h0, stepImpl, analysisPhase, cfg0, inp0]
    have s1 : scen1.status = 0 := by
      norm_num [scen1, h0, stepImpl, analysisPhase, cfg0, inp0]
    have h2 : scen2.state =
        { lastSendTime := 0, sampleCount := 3, isConnected := true, tcpClient := true } := by
      norm_num [scen2, h1, stepImpl, analysisPhase, cfg0, inp0]
    have s2 : scen2.status = 0 := by
      norm_num [scen2, h1, stepImpl, analysisPhase, cfg0, inp0]
    have s3 : scen3.status = 1 := by
      norm_num [scen3, h2, stepImpl, analysisPhase, cfg0, inp0]
    exact ⟨s0, s1, s2, s3⟩

/-- Claim C3, witness: the gate equivalence instantiated on a concrete
skipped tick (elapsed below the interval, counter above one). -/
theorem c3_gate_witness :
    ((stepImpl ext0 cfg0 scen0.state inp0 1 true).attempted = true ↔
      ((1 : ℚ) - scen0.state.lastSendTime ≥ cfg0.sendInterval ∨
        scen0.state.sampleCount + 1 = 1)) ∧
    ((stepImpl ext0 cfg0 scen0.state inp0 1 true).attempted = false →
      (stepImpl ext0 cfg0 scen0.state inp0 1 true).status = 0 ∧
      (stepImpl ext0 cfg0 scen0.state inp0 1 true).transmitted = none) :=
  (c3_gate.1) ext0 cfg0 scen0.state inp0 1 true q0 rfl

/-- Claim C5: when the session was never successfully opened
(`IsConnected = false`), a tick that would otherwise send transmits nothing
— no implicit reconnection is attempted — and the Scheduler reports outcome
0, not -1, leaving the connection state unchanged. -/
theorem c5_not_connected (ext : Externals) (cfg : Config) (st : MeterState)
    (inp : StepInput) (now : ℚ) (sendOk : Bool) (q : Quantities)
    (hq : analysisPhase cfg inp = Except.ok q)
    (hc : st.isConnected = false) :
    (stepImpl ext cfg st inp now sendOk).status = 0 ∧
    (stepImpl ext cfg st inp now sendOk).transmitted = none ∧
    (stepImpl ext cfg st inp now sendOk).state.isConnected = false ∧
    (stepImpl ext cfg st inp now sendOk).state.lastSendTime = st.lastSendTime := by
  unfold stepImpl
  dsimp only
  rw [hq]
  dsimp only
  split
  · simp [hc]
  · simp [hc]

/-- Claim C5, witness: a concrete tick on a never-opened session (gate due)
yields outcome 0 with nothing transmitted. -/
theorem c5_not_connected_witness :
    (stepImpl ext0 cfg0 stDisc inp0 3 true).status = 0 ∧
    (stepImpl ext0 cfg0 stDisc inp0 3 true).transmitted = none ∧
    (stepImpl ext0 cfg0 stDisc inp0 3 true).state.isConnected = false ∧
    (stepImpl ext0 cfg0 stDisc inp0 3 true).state.lastSendTime = stDisc.lastSendTime :=
  c5_not_connected ext0 cfg0 stDisc inp0 3 true q0 rfl rfl

/-- Claim C6, counterexample: after a send error on an established,
connected session (tick at `t = 100` with a failing transport write,
outcome -1), the connection state is NOT moved to any failed condition —
the very next due tick performs a fresh transport attempt that succeeds
(outcome 1) without any reinitialization, contradicting the claim that
every subsequent send is treated as a connectivity failure until the
component is reinitialized. -/
theorem c6_counterexample :
    (stepImpl ext0 cfg0 st0 inp0 100 false).status = -1 ∧
    (stepImpl ext0 cfg0 st0 inp0 100 false).state.isConnected = true ∧
    (stepImpl ext0 cfg0 (stepImpl ext0 cfg0 st0 inp0 100 false).state
      inp0 200 true).status = 1 := by
  have h1 : (stepImpl ext0 cfg0 st0 inp0 100 false).state =
      { lastSendTime := 0, sampleCount := 1, isConnected := true, tcpClient := true } := by
    norm_num [stepImpl, analysisPhase, cfg0, st0, inp0]
  refine ⟨?_, ?_, ?_⟩
  · norm_num [stepImpl, analysisPhase, cfg0, st0, inp0]
  · rw [h1]
  · rw [h1]
    norm_num [stepImpl, analysisPhase, cfg0, inp0]

/-- Claim C6, amended: after a send error on an established session the
code performs no state transition at all — there is no Failed state; the
connection flag and transport handle are unchanged, `LastSendTime` is
retained, and the error is visible only as that tick's -1 outcome, so
subsequent due ticks make fresh transport attempts. -/
theorem c6_amended (ext : Externals) (cfg : Config) (st : MeterState)
    (inp : StepInput) (now : ℚ) (sendOk : Bool) (q : Quantities)
    (hq : analysisPhase cfg inp = Except.ok q)
    (hc : st.isConnected = true)
    (hg : now - st.lastSendTime ≥ cfg.sendInterval ∨ st.sampleCount + 1 = 1)
    (hs : sendOk = false) :
    (stepImpl ext cfg st inp now sendOk).status = -1 ∧
    (stepImpl ext cfg st inp now sendOk).state.isConnected = true ∧
    (stepImpl ext cfg st inp now sendOk).state.tcpClient = st.tcpClient ∧
    (stepImpl ext cfg st inp now sendOk).state.lastSendTime = st.lastSendTime := by
  have hg' : cfg.sendInterval ≤ now - st.lastSendTime ∨ st.sampleCount = 0 := by
    rcases hg with h | h
    · exact Or.inl h
    · exact Or.inr (by omega)
  unfold stepImpl
  dsimp only
  rw [hq]
  dsimp only
  simp [hg', hc, hs]

/-- Claim C6 (amended), witness: the amended statement at a concrete failing
send. -/
theorem c6_amended_witness :
    (stepImpl ext0 cfg0 st0 inp0 100 false).status = -1 ∧
    (stepImpl ext0 cfg0 st0 inp0 100 false).state.isConnected = true ∧
    (stepImpl ext0 cfg0 st0 inp0 100 false).state.tcpClient = st0.tcpClient ∧
    (stepImpl ext0 cfg0 st0 inp0 100 false).state.lastSendTime = st0.lastSendTime :=
  c6_amended ext0 cfg0 st0 inp0 100 false q0 rfl rfl
    (Or.inl (by norm_num [st0, cfg0])) rfl

/-- For a positive sampling rate and a nonnegative nominal frequency the
one-based bin index the code computes is a valid MATLAB index (at least 1). -/
lemma one_le_fundamentalBin (N : ℕ) (fs f : ℚ) (hfs : 0 < fs) (hf : 0 ≤ f)
    (hN : 1 ≤ N) : 1 ≤ fundamentalBin N fs f := by
  have h0 : (0 : ℤ) ≤ matlabRoundQ (f * (N : ℚ) / fs) := by
    unfold matlabRoundQ
    have hx : (0 : ℚ) ≤ f * (N : ℚ) / fs := by positivity
    rw [if_pos hx]
    exact Int.le_floor.mpr (by push_cast; linarith)
  unfold fundamentalBin
  dsimp only
  split
  · have hNZ : (N : ℤ) ≠ 0 := by exact_mod_cast Nat.one_le_iff_ne_zero.mp hN
    have := Int.emod_nonneg (matlabRoundQ (f * (N : ℚ) / fs) + 1 - 1) hNZ
    omega
  · omega

/-- Claim C2, counterexample: the code has no `N ≥ 2` guard — on the
single-sample window `v = [1]`, `i = [1]` (equal non-empty lengths, `N = 1`)
the analysis succeeds and produces a measurement instead of failing with
`InvalidWindow` as the claim asserts for lengths below 2. -/
theorem c2_counterexample :
    exOk (analyzeWaveform 4800 50 [(1 : ℝ)] [(1 : ℝ)]) = true := by
  unfold analyzeWaveform
  norm_num [fundamentalBin, matlabRoundQ, exOk]

/-- Claim C2, amended: in waveform mode the analysis fails exactly for an
empty voltage sequence, an empty current sequence, or sequences of unequal
length; every pair of non-empty equal-length sequences — including
single-sample windows, the code has no `N ≥ 2` guard — succeeds and
produces a measurement (given a positive sampling rate and a nonnegative
nominal frequency, under which the fundamental bin index is always a valid
one). -/
theorem c2_amended (fs f : ℚ) (v i : List ℝ) (hfs : 0 < fs) (hf : 0 ≤ f) :
    exOk (analyzeWaveform fs f v i) = false ↔
      (v.length = 0 ∨ i.length = 0 ∨ v.length ≠ i.length) := by
  unfold analyzeWaveform
  by_cases hval : v.length = 0 ∨ i.length = 0 ∨ v.length ≠ i.length
  · rw [if_pos hval]
    simpa [exOk] using hval
  · rw [if_neg hval]
    dsimp only
    have hN : 1 ≤ v.length := by
      rcases Nat.eq_zero_or_pos v.length with h | h
      · exact absurd (Or.inl h) hval
      · exact h
    have hk := one_le_fundamentalBin v.length fs f hfs hf hN
    rw [if_neg (by omega : ¬fundamentalBin v.length fs f < 1)]
    push_neg at hval
    simp [exOk]
    exact ⟨fun h => hval.1 (by simp [h]), fun h => hval.2.1 (by simp [h]), hval.2.2⟩

/-- Claim C2 (amended), witness: a concrete valid two-sample window is
accepted. -/
theorem c2_amended_witness :
    exOk (analyzeWaveform 4800 50 [(1 : ℝ), 2] [(3 : ℝ), 4]) = false ↔
      (([(1 : ℝ), 2]).length = 0 ∨ ([(3 : ℝ), 4]).length = 0 ∨
        ([(1 : ℝ), 2]).length ≠ ([(3 : ℝ), 4]).length) :=
  c2_amended 4800 50 [(1 : ℝ), 2] [(3 : ℝ), 4] (by norm_num) (by norm_num)

/-- Claim C4, counterexample: the claim (and the spec) place the fundamental
at the one-based bin `k = round(f * N / fs)`, but the code computes
`round(f * N / fs) + 1` (line 111, the `+1` converting the zero-based DFT
bin to a one-based index).  At `N = 4`, `fs = 4`, `f = 1` the code selects
index 2 (the true fundamental) while the claim's formula selects index 1
(the DC bin). -/
theorem c4_counterexample :
    fundamentalBin 4 4 1 = 2 ∧ specFundamentalBin 4 4 1 = 1 ∧
    fundamentalBin 4 4 1 ≠ specFundamentalBin 4 4 1 := by
  refine ⟨?_, ?_, ?_⟩ <;>
    norm_num [fundamentalBin, specFundamentalBin, matlabRoundQ]

/-- Claim C4, amended: for every waveform window of length `N ≥ 2` (equal
lengths) with positive sampling rate `fs` and nonnegative nominal frequency
`f`, the analyzer DFTs the Hann-windowed sequences, selects the one-based
fundamental bin `k = round(f * N / fs) + 1` (wrapped into `[1, N]` via
`((k-1) mod N) + 1` when it exceeds `N` — this is `fundamentalBin`), and
reports `Vrms_fund = |V1|/N/sqrt 2`, `Irms_fund = |I1|/N/sqrt 2`,
`S = Vrms_fund * Irms_fund`, `P_fund = Re(V1 * conj I1)/N^2` and
`Q_fund = Im(V1 * conj I1)/N^2` where `V1`, `I1` are the DFT values at bin
`k`. -/
theorem c4_amended (fs f : ℚ) (v i : List ℝ)
    (hfs : 0 < fs) (hf : 0 ≤ f) (hN : 2 ≤ v.length)
    (hlen : v.length = i.length) :
    analyzeWaveform fs f v i =
      Except.ok
        { pActive := listMean (List.zipWith (fun a b => a * b) (windowed v) (windowed i))
          pReactive :=
            (fftBin (windowed v) (fundamentalBin v.length fs f) *
              (starRingEnd ℂ) (fftBin (windowed i) (fundamentalBin v.length fs f))).im /
              ((v.length : ℝ) ^ 2)
          voltage := Real.sqrt (listMean ((windowed v).map (fun a => a ^ 2)))
          current := Real.sqrt (listMean ((windowed i).map (fun a => a ^ 2)))
          frequency := (f : ℝ)
          timeOfUse := ""
          energyKwh := none
          maxDemandKw := none
          costValue := none
          meta := some
            { VrmsFund :=
                Complex.abs (fftBin (windowed v) (fundamentalBin v.length fs f)) /
                  (v.length : ℝ) / Real.sqrt 2
              IrmsFund :=
                Complex.abs (fftBin (windowed i) (fundamentalBin v.length fs f)) /
                  (v.length : ℝ) / Real.sqrt 2
              Pfund :=
                (fftBin (windowed v) (fundamentalBin v.length fs f) *
                  (starRingEnd ℂ) (fftBin (windowed i) (fundamentalBin v.length fs f))).re /
                  ((v.length : ℝ) ^ 2)
              Qfund :=
                (fftBin (windowed v) (fundamentalBin v.length fs f) *
                  (starRingEnd ℂ) (fftBin (windowed i) (fundamentalBin v.length fs f))).im /
                  ((v.length : ℝ) ^ 2)
              S :=
                (Complex.abs (fftBin (windowed v) (fundamentalBin v.length fs f)) /
                  (v.length : ℝ) / Real.sqrt 2) *
                (Complex.abs (fftBin (windowed i) (fundamentalBin v.length fs f)) /
                  (v.length : ℝ) / Real.sqrt 2)
              N := v.length } } := by
  have hval : ¬(v.length = 0 ∨ i.length = 0 ∨ v.length ≠ i.length) := by
    push_neg
    refine ⟨by omega, by omega, hlen⟩
  have hk := one_le_fundamentalBin v.length fs f hfs hf (by omega)
  unfold analyzeWaveform
  rw [if_neg hval]
  dsimp only
  rw [if_neg (by omega : ¬fundamentalBin v.length fs f < 1)]

/-- Claim C4 (amended), witness: the amended statement at a concrete
four-sample window. -/
theorem c4_amended_witness :
    analyzeWaveform 4 1 [(9 : ℝ), 1, 1, 9] [(9 : ℝ), 1, 1, 9] =
      Except.ok
        { pActive :=
            listMean (List.zipWith (fun a b => a * b)
              (windowed [(9 : ℝ), 1, 1, 9]) (windowed [(9 : ℝ), 1, 1, 9]))
          pReactive :=
            (fftBin (windowed [(9 : ℝ), 1, 1, 9])
                (fundamentalBin ([(9 : ℝ), 1, 1, 9]).length 4 1) *
              (starRingEnd ℂ) (fftBin (windowed [(9 : ℝ), 1, 1, 9])
                (fundamentalBin ([(9 : ℝ), 1, 1, 9]).length 4 1))).im /
              ((([(9 : ℝ), 1, 1, 9]).length : ℝ) ^ 2)
          voltage :=
            Real.sqrt (listMean ((windowed [(9 : ℝ), 1, 1, 9]).map (fun a => a ^ 2)))
          current :=
            Real.sqrt (listMean ((windowed [(9 : ℝ), 1, 1, 9]).map (fun a => a ^ 2)))
          frequency := ((1 : ℚ) : ℝ)
          timeOfUse := ""
          energyKwh := none
          maxDemandKw := none
          costValue := none
          meta := some
            { VrmsFund :=
                Complex.abs (fftBin (windowed [(9 : ℝ), 1, 1, 9])
                  (fundamentalBin ([(9 : ℝ), 1, 1, 9]).length 4 1)) /
                  (([(9 : ℝ), 1, 1, 9]).length : ℝ) / Real.sqrt 2
              IrmsFund :=
                Complex.abs (fftBin (windowed [(9 : ℝ), 1, 1, 9])
                  (fundamentalBin ([(9 : ℝ), 1, 1, 9]).length 4 1)) /
                  (([(9 : ℝ), 1, 1, 9]).length : ℝ) / Real.sqrt 2
              Pfund :=
                (fftBin (windowed [(9 : ℝ), 1, 1, 9])
                    (fundamentalBin ([(9 : ℝ), 1, 1, 9]).length 4 1) *
                  (starRingEnd ℂ) (fftBin (windowed [(9 : ℝ), 1, 1, 9])
                    (fundamentalBin ([(9 : ℝ), 1, 1, 9]).length 4 1))).re /
                  ((([(9 : ℝ), 1, 1, 9]).length : ℝ) ^ 2)
              Qfund :=
                (fftBin (windowed [(9 : ℝ), 1, 1, 9])
                    (fundamentalBin ([(9 : ℝ), 1, 1, 9]).length 4 1) *
                  (starRingEnd ℂ) (fftBin (windowed [(9 : ℝ), 1, 1, 9])
                    (fundamentalBin ([(9 : ℝ), 1, 1, 9]).length 4 1))).im /
                  ((([(9 : ℝ), 1, 1, 9]).length : ℝ) ^ 2)
              S :=
                (Complex.abs (fftBin (windowed [(9 : ℝ), 1, 1, 9])
                  (fundamentalBin ([(9 : ℝ), 1, 1, 9]).length 4 1)) /
                  (([(9 : ℝ), 1, 1, 9]).length : ℝ) / Real.sqrt 2) *
                (Complex.abs (fftBin (windowed [(9 : ℝ), 1, 1, 9])
                  (fundamentalBin ([(9 : ℝ), 1, 1, 9]).length 4 1)) /
                  (([(9 : ℝ), 1, 1, 9]).length : ℝ) / Real.sqrt 2)
              N := ([(9 : ℝ), 1, 1, 9]).length } } :=
  c4_amended 4 1 [(9 : ℝ), 1, 1, 9] [(9 : ℝ), 1, 1, 9]
    (by norm_num) (by norm_num) (by norm_num) rfl

/-- Every character `hexChar` can produce is a lowercase hexadecimal
digit. -/
lemma hexChar_lowerHex (n : ℕ) : isLowerHexChar (hexChar n) = true := by
  unfold hexChar
  by_cases h1 : n < 10
  · rw [if_pos h1]
    interval_cases n <;> decide
  · rw [if_neg h1]
    by_cases h2 : n < 16
    · rw [if_pos h2]
      have h3 : 10 ≤ n := Nat.le_of_not_lt h1
      interval_cases n <;> decide
    · rw [if_neg h2]
      decide

/-- Both renderings `byteHex` can produce consist of lowercase hexadecimal
digits. -/
lemma byteHex_lowerHex (w b : ℕ) :
    (byteHex w b).data.all isLowerHexChar = true := by
  unfold byteHex
  split <;> simp [hexChar_lowerHex]

/-- Folding string concatenation preserves the all-lowercase-hex
property. -/
lemma foldl_append_lowerHex (l : List String) (acc : String)
    (hacc : acc.data.all isLowerHexChar = true)
    (h : ∀ s ∈ l, s.data.all isLowerHexChar = true) :
    (l.foldl (fun a b => a ++ b) acc).data.all isLowerHexChar = true := by
  induction l generalizing acc with
  | nil => simpa using hacc
  | cons s t ih =>
      apply ih
      · have hd : (acc ++ s).data = acc.data ++ s.data := by
          cases acc
          cases s
          rfl
        rw [hd, List.all_append]
        simp [hacc, h s (by simp)]
      · intro s' hs'
        exact h s' (by simp [hs'])

/-- The hex rendering of any byte sequence consists of lowercase
hexadecimal digits only. -/
lemma hmacHexOfBytes_lowerHex (bs : List ℕ) :
    (hmacHexOfBytes bs).data.all isLowerHexChar = true := by
  unfold hmacHexOfBytes String.join
  dsimp only
  apply foldl_append_lowerHex
  · decide
  · intro s hs
    simp only [List.mem_map] at hs
    obtain ⟨b, _, rfl⟩ := hs
    exact byteHex_lowerHex _ b

/-- Claim C8: on every attempted send with a non-empty signing key, the
transmitted bytes are the serialized envelope containing the encoded
payload, the lowercase-hexadecimal HMAC-SHA256 of those exact payload bytes
under that key, the meter id and the capture timestamp; with no key
configured the raw encoded payload is transmitted unmodified.  The second
conjunct certifies that the signature string is lowercase hexadecimal. -/
theorem c8_signing (ext : Externals) (cfg : Config) (st : MeterState)
    (inp : StepInput) (now : ℚ) (sendOk : Bool) (q : Quantities)
    (hq : analysisPhase cfg inp = Except.ok q)
    (hc : st.isConnected = true)
    (hg : now - st.lastSendTime ≥ cfg.sendInterval ∨ st.sampleCount + 1 = 1) :
    (stepImpl ext cfg st inp now sendOk).transmitted =
      some (if cfg.hmacKey ≠ "" then
          ext.jsonencodeEnv
            { payload := payloadOf ext cfg q (tsNs now)
              hmac := hmacSha256Hex ext.hmacRaw
                (payloadOf ext cfg q (tsNs now)) cfg.hmacKey
              meter_id := cfg.meterId
              timestamp_ns := tsNs now }
        else payloadOf ext cfg q (tsNs now)) ∧
    (hmacSha256Hex ext.hmacRaw (payloadOf ext cfg q (tsNs now))
      cfg.hmacKey).data.all isLowerHexChar = true := by
  have hg' : cfg.sendInterval ≤ now - st.lastSendTime ∨ st.sampleCount = 0 := by
    rcases hg with h | h
    · exact Or.inl h
    · exact Or.inr (by omega)
  constructor
  · unfold stepImpl
    dsimp only
    rw [hq]
    dsimp only
    cases sendOk <;> simp [hg', hc, sendStrOf]
  · exact hmacHexOfBytes_lowerHex _

/-- Claim C8, witness: a concrete signed send transmits the serialized
envelope built over the exact payload. -/
theorem c8_signing_witness :
    (stepImpl extHmac cfgHmac st0 inp0 0 true).transmitted =
      some (if cfgHmac.hmacKey ≠ "" then
          extHmac.jsonencodeEnv
            { payload := payloadOf extHmac cfgHmac q0 (tsNs 0)
              hmac := hmacSha256Hex extHmac.hmacRaw
                (payloadOf extHmac cfgHmac q0 (tsNs 0)) cfgHmac.hmacKey
              meter_id := cfgHmac.meterId
              timestamp_ns := tsNs 0 }
        else payloadOf extHmac cfgHmac q0 (tsNs 0)) ∧
    (hmacSha256Hex extHmac.hmacRaw (payloadOf extHmac cfgHmac q0 (tsNs 0))
      cfgHmac.hmacKey).data.all isLowerHexChar = true :=
  c8_signing extHmac cfgHmac st0 inp0 0 true q0 rfl rfl (Or.inr rfl)

end SmartMeter
